import Mathlib

/-!
Verification of the relay component of `src/app.py` (the `api_proxy` Flask
view).  The handler receives a JSON payload `{targetUrl, method, headers,
body}`, validates `targetUrl`, strips some request headers, performs the
outbound HTTP call through the `requests` library, filters the upstream
response headers and relays status/body back to the caller.

The embedding models the decoded JSON payload as an inductive `Json` type
(the Python object produced by `request.get_json(silent=True)`; `none`
stands for an absent or undecodable body), Python truthiness, `dict.get`
and `dict.pop` on association lists, and the `requests.request` call as an
oracle `net : OutboundRequest → NetResult` supplied by the environment.
`api_proxy` returns the HTTP outcome together with the outbound request
that was issued, if any, so that "no outbound call is made" is a statement
about the second component.  A Python exception raised outside the
`try`/`except` block of the source is modelled as `Outcome.unhandled`.
-/

namespace NanoBanana

/-- Decoded JSON values, i.e. the Python objects `json.loads` can produce.
Numbers are modelled as integers; no claim depends on float payloads. -/
inductive Json where
  | null : Json
  | bool (b : Bool) : Json
  | num (n : Int) : Json
  | str (s : String) : Json
  | arr (elems : List Json) : Json
  | obj (fields : List (String × Json)) : Json
deriving Repr

/-- Python `x is None` on a decoded JSON value. -/
def Json.isNull : Json → Bool
  | Json.null => true
  | _ => false

/-- Python `s.upper()`, modelled characterwise (the handler only uppercases
HTTP method names). -/
def strUpper (s : String) : String := String.mk (s.data.map Char.toUpper)

/-- Python `s.lower()`, modelled characterwise (the handler only lowercases
HTTP header names). -/
def strLower (s : String) : String := String.mk (s.data.map Char.toLower)

/-- Python truthiness of a decoded JSON value: `None`, `False`, `0`, `""`,
`[]` and `{}` are falsy, everything else is truthy. -/
def pyTruthy : Json → Bool
  | Json.null => false
  | Json.bool b => b
  | Json.num n => n != 0
  | Json.str s => s != ""
  | Json.arr elems => !elems.isEmpty
  | Json.obj fields => !fields.isEmpty

/-- Python `d.get(key)` on a dict (default `None`); a missing key and an
explicit JSON `null` both come back as `Json.null`, exactly as both map to
Python `None`. -/
def dictGet (fields : List (String × Json)) (key : String) : Json :=
  match fields.find? (fun f => f.fst == key) with
  | some f => f.snd
  | none => Json.null

/-- Python `d.pop(key, None)`: remove the entry with the given key.
Parsed Python dicts have unique keys, so removing every occurrence agrees
with `pop`. -/
def dictPop (fields : List (String × Json)) (key : String) : List (String × Json) :=
  fields.filter (fun f => f.fst != key)

/-- Line 115 of `src/app.py`: the exact keys popped from the caller-supplied
header dict before the outbound call. -/
def forwardStripKeys : List String := ["host", "Host", "content-length", "Content-Length"]

/-- Lines 115-116: `for h in [...]: headers.pop(h, None)`. -/
def stripRequestHeaders (headers : List (String × Json)) : List (String × Json) :=
  forwardStripKeys.foldl dictPop headers

/-- Line 107: `method = (data.get("method") or "POST").upper()`.  A truthy
non-string value has no `.upper` attribute, which raises before the
`try` block. -/
def computeMethod (fields : List (String × Json)) : Except String String :=
  let raw := dictGet fields "method"
  if pyTruthy raw then
    match raw with
    | Json.str s => Except.ok (strUpper s)
    | _ => Except.error "AttributeError: object has no attribute upper"
  else
    Except.ok "POST"

/-- Lines 108 and 115-116: `headers = data.get("headers") or {}` followed by
the pops.  A truthy non-dict value has no `.pop` attribute, which raises
before the `try` block. -/
def computeHeaders (fields : List (String × Json)) : Except String (List (String × Json)) :=
  let raw := dictGet fields "headers"
  if pyTruthy raw then
    match raw with
    | Json.obj hs => Except.ok (stripRequestHeaders hs)
    | _ => Except.error "AttributeError: object has no attribute pop"
  else
    Except.ok []

/-- Lines 120-122: `kwargs["json"] = body` exactly when the normalized
method is not `"GET"` and `body is not None`. -/
def computeBody (method : String) (body : Json) : Option Json :=
  if method != "GET" && !body.isNull then some body else none

/-- Line 127: the response-header names excluded from re-emission. -/
def excludedResponseKeys : List String := ["content-encoding", "transfer-encoding", "connection"]

/-- Lines 128-130: `{k: v for k, v in resp.headers.items() if k.lower() not in excluded}`. -/
def filterResponseHeaders (headers : List (String × String)) : List (String × String) :=
  headers.filter (fun kv => !(excludedResponseKeys.contains (strLower kv.fst)))

/-- The outbound call handed to `requests.request` (line 124): method,
target URL (kept as the JSON value found in the payload), sanitized
headers, the `timeout` kwarg, and the optional `json` kwarg. -/
structure OutboundRequest where
  method : String
  url : Json
  headers : List (String × Json)
  timeout : Nat
  jsonBody : Option Json
deriving Repr

/-- The upstream reply as seen through the `requests` response object:
`status_code`, `content` (bytes) and `headers`. -/
structure UpstreamResponse where
  status_code : Nat
  content : List Nat
  headers : List (String × String)
deriving Repr, DecidableEq

/-- Outcome of the `requests.request` call: a response, or any raised
exception (DNS failure, refused connection, timeout, TLS failure, a
non-string URL, ...) carrying `str(exc)`. -/
inductive NetResult where
  | ok (resp : UpstreamResponse) : NetResult
  | exn (msg : String) : NetResult
deriving Repr, DecidableEq

/-- Body of a reply produced by the handler: either `jsonify({"error": msg})`
or the raw upstream bytes. -/
inductive ReplyBody where
  | jsonError (msg : String) : ReplyBody
  | raw (content : List Nat) : ReplyBody
deriving Repr, DecidableEq

/-- An HTTP reply built by the handler: status, body, and the headers it
sets explicitly (empty for the `jsonify` replies). -/
structure Reply where
  status : Nat
  body : ReplyBody
  headers : List (String × String)
deriving Repr, DecidableEq

/-- What the view produces: a reply, or a Python exception escaping the
handler (raised outside its `try` block). -/
inductive Outcome where
  | reply (r : Reply) : Outcome
  | unhandled (err : String) : Outcome
deriving Repr, DecidableEq

/-- Line 112: `jsonify({"error": "targetUrl is required"}), 400`. -/
def validationReply : Reply :=
  { status := 400, body := ReplyBody.jsonError "targetUrl is required", headers := [] }

/-- Line 105: `data = request.get_json(silent=True) or {}`.  `none` models a
missing or undecodable body (where `get_json` gives `None`); any falsy
parse result is replaced by the empty dict. -/
def parseData : Option Json → Json
  | none => Json.obj []
  | some j => if pyTruthy j then j else Json.obj []

/-- The outbound request issued on the happy path, assembled from the
payload fields exactly as lines 106-124 do. -/
def mkOutboundRequest (fields : List (String × Json)) (m : String)
    (hs : List (String × Json)) : OutboundRequest :=
  { method := m
    url := dictGet fields "targetUrl"
    headers := hs
    timeout := 120
    jsonBody := computeBody m (dictGet fields "body") }

/-- Lines 106-137 of `src/app.py`, applied to the already-parsed `data`
value: field extraction, validation, header cleanup, outbound call and
response translation.  A truthy non-dict `data` raises on `.get`. -/
def handleData (net : OutboundRequest → NetResult) : Json → Outcome × Option OutboundRequest
  | Json.obj fields =>
    match computeMethod fields with
    | Except.error e => (Outcome.unhandled e, none)
    | Except.ok method =>
      if pyTruthy (dictGet fields "targetUrl") then
        match computeHeaders fields with
        | Except.error e => (Outcome.unhandled e, none)
        | Except.ok headers =>
          let req := mkOutboundRequest fields method headers
          match net req with
          | NetResult.ok resp =>
            (Outcome.reply
              { status := resp.status_code
                body := ReplyBody.raw resp.content
                headers := filterResponseHeaders resp.headers }, some req)
          | NetResult.exn msg =>
            (Outcome.reply { status := 500, body := ReplyBody.jsonError msg, headers := [] },
              some req)
      else
        (Outcome.reply validationReply, none)
  | _ => (Outcome.unhandled "AttributeError: object has no attribute get", none)

/-- Lines 97-137, the `api_proxy` view.  `net` is the behaviour of
`requests.request`; `parsed` is the decoded inbound body.  The second
component records the outbound call that was issued, if any. -/
def api_proxy (net : OutboundRequest → NetResult) (parsed : Option Json) :
    Outcome × Option OutboundRequest :=
  handleData net (parseData parsed)

/-- A payload field holding either a falsy value (so the `or` default kicks
in) or a string, as the `method` field must to avoid an `AttributeError`. -/
def stringOrFalsy (j : Json) : Prop := pyTruthy j = false ∨ ∃ s, j = Json.str s

/-- A payload field holding either a falsy value or a dict, as the
`headers` field must to avoid an `AttributeError`. -/
def dictOrFalsy (j : Json) : Prop := pyTruthy j = false ∨ ∃ hs, j = Json.obj hs

/-- Inbound bodies matching the RelayRequest shape loosely enough for the
handler not to raise: absent/undecodable, falsy, or an object whose
`method` field is a string (or falsy) and whose `headers` field is a dict
(or falsy). -/
def wellTypedPayload : Option Json → Prop
  | none => True
  | some j => pyTruthy j = false ∨
      ∃ fields, j = Json.obj fields ∧
        stringOrFalsy (dictGet fields "method") ∧ dictOrFalsy (dictGet fields "headers")

/-! ### Evaluation lemmas for `api_proxy` -/

theorem dictGet_nil (key : String) : dictGet [] key = Json.null := rfl

/-- `dict.get` on a dict missing the `targetUrl` key is falsy, so a payload
whose parse collapsed to the empty dict never reaches the outbound call. -/
theorem pyTruthy_dictGet_nil (key : String) : pyTruthy (dictGet [] key) = false := rfl

/-- When the parsed payload is a dict, the method normalizes, the target is
truthy and the header cleanup succeeds, the handler issues exactly the
outbound request assembled by `mkOutboundRequest` and relays `net`'s
answer. -/
theorem api_proxy_run (net : OutboundRequest → NetResult) (parsed : Option Json)
    (fields : List (String × Json)) (m : String) (hs : List (String × Json))
    (hd : parseData parsed = Json.obj fields)
    (hm : computeMethod fields = Except.ok m)
    (ht : pyTruthy (dictGet fields "targetUrl") = true)
    (hh : computeHeaders fields = Except.ok hs) :
    api_proxy net parsed =
      (match net (mkOutboundRequest fields m hs) with
       | NetResult.ok resp =>
         Outcome.reply { status := resp.status_code, body := ReplyBody.raw resp.content,
                         headers := filterResponseHeaders resp.headers }
       | NetResult.exn msg =>
         Outcome.reply { status := 500, body := ReplyBody.jsonError msg, headers := [] },
       some (mkOutboundRequest fields m hs)) := by
  unfold api_proxy
  rw [hd]
  simp only [handleData, hm, ht, hh, if_true]
  cases net (mkOutboundRequest fields m hs) <;> rfl

/-- When the parsed payload is a dict whose method normalizes but whose
`targetUrl` entry is falsy, the handler answers 400 and records no
outbound call. -/
theorem api_proxy_validation (net : OutboundRequest → NetResult) (parsed : Option Json)
    (fields : List (String × Json))
    (hd : parseData parsed = Json.obj fields)
    (hm : ∃ m, computeMethod fields = Except.ok m)
    (ht : pyTruthy (dictGet fields "targetUrl") = false) :
    api_proxy net parsed = (Outcome.reply validationReply, none) := by
  obtain ⟨m, hm⟩ := hm
  unfold api_proxy
  rw [hd]
  simp only [handleData, hm, ht]
  simp

/-- A `method` field that is falsy or a string always normalizes. -/
theorem computeMethod_ok_of_stringOrFalsy (fields : List (String × Json))
    (h : stringOrFalsy (dictGet fields "method")) :
    ∃ m, computeMethod fields = Except.ok m := by
  rcases h with h | ⟨s, h⟩
  · exact ⟨"POST", by simp [computeMethod, h]⟩
  · by_cases hs : s = ""
    · subst hs
      exact ⟨"POST", by simp [computeMethod, h, pyTruthy]⟩
    · refine ⟨strUpper s, ?_⟩
      simp [computeMethod, h, pyTruthy, hs]

/-- A `headers` field that is falsy or a dict always survives the pops. -/
theorem computeHeaders_ok_of_dictOrFalsy (fields : List (String × Json))
    (h : dictOrFalsy (dictGet fields "headers")) :
    ∃ hs, computeHeaders fields = Except.ok hs := by
  rcases h with h | ⟨hs0, h⟩
  · exact ⟨[], by simp [computeHeaders, h]⟩
  · by_cases htr : pyTruthy (Json.obj hs0) = true
    · exact ⟨stripRequestHeaders hs0, by simp [computeHeaders, h, htr]⟩
    · refine ⟨[], ?_⟩
      simp only [computeHeaders, h]
      rw [if_neg (by simpa using htr)]

/-- Inversion: whenever the handler records an outbound call, the parsed
payload was a dict whose method normalized, whose `targetUrl` was truthy,
whose header cleanup succeeded, and the call is the canonical one. -/
theorem api_proxy_call_shape (net : OutboundRequest → NetResult) (parsed : Option Json)
    (req : OutboundRequest) (h : (api_proxy net parsed).2 = some req) :
    ∃ fields m hs, parseData parsed = Json.obj fields ∧
      computeMethod fields = Except.ok m ∧
      pyTruthy (dictGet fields "targetUrl") = true ∧
      computeHeaders fields = Except.ok hs ∧
      req = mkOutboundRequest fields m hs := by
  unfold api_proxy at h
  cases hd : parseData parsed with
  | obj fields =>
    rw [hd] at h
    simp only [handleData] at h
    cases hm : computeMethod fields with
    | error e => simp only [hm] at h; simp at h
    | ok m =>
      simp only [hm] at h
      by_cases ht : pyTruthy (dictGet fields "targetUrl") = true
      · rw [if_pos ht] at h
        cases hh : computeHeaders fields with
        | error e => simp only [hh] at h; simp at h
        | ok hs =>
          simp only [hh] at h
          refine ⟨fields, m, hs, rfl, hm, ht, hh, ?_⟩
          cases hnet : net (mkOutboundRequest fields m hs) <;>
            simp only [hnet] at h <;> exact (Option.some.injEq _ _ ▸ h).symm
      · rw [if_neg ht] at h
        simp at h
  | null => rw [hd] at h; simp [handleData] at h
  | bool b => rw [hd] at h; simp [handleData] at h
  | num n => rw [hd] at h; simp [handleData] at h
  | str s => rw [hd] at h; simp [handleData] at h
  | arr elems => rw [hd] at h; simp [handleData] at h

/-! ### Header-filter lemmas -/

theorem mem_dictPop (l : List (String × Json)) (key : String) (p : String × Json) :
    p ∈ dictPop l key ↔ p ∈ l ∧ p.fst ≠ key := by
  simp [dictPop, List.mem_filter]

/-- Membership in the sanitized outbound header dict: exactly the entries
whose key is none of the four popped literals survive. -/
theorem mem_stripRequestHeaders (hs : List (String × Json)) (p : String × Json) :
    p ∈ stripRequestHeaders hs ↔ p ∈ hs ∧ p.fst ∉ forwardStripKeys := by
  show p ∈ dictPop (dictPop (dictPop (dictPop hs "host") "Host") "content-length")
      "Content-Length" ↔ _
  simp only [mem_dictPop, forwardStripKeys, List.mem_cons, List.not_mem_nil]
  constructor
  · rintro ⟨⟨⟨⟨hp, h1⟩, h2⟩, h3⟩, h4⟩
    refine ⟨hp, ?_⟩
    rintro (h | h | h | h | h) <;> simp_all
  · rintro ⟨hp, hk⟩
    refine ⟨⟨⟨⟨hp, ?_⟩, ?_⟩, ?_⟩, ?_⟩ <;> intro hcontra <;> exact hk (by simp [hcontra])

/-- Membership in the relayed response headers: exactly the upstream
entries whose lowercased name is not excluded survive. -/
theorem mem_filterResponseHeaders (hs : List (String × String)) (p : String × String) :
    p ∈ filterResponseHeaders hs ↔ p ∈ hs ∧ strLower p.fst ∉ excludedResponseKeys := by
  simp [filterResponseHeaders, List.mem_filter]

theorem filterResponseHeaders_sublist (hs : List (String × String)) :
    List.Sublist (filterResponseHeaders hs) hs :=
  List.filter_sublist hs

theorem filterResponseHeaders_idem (hs : List (String × String)) :
    filterResponseHeaders (filterResponseHeaders hs) = filterResponseHeaders hs := by
  apply List.filter_eq_self.mpr
  intro p hp
  exact (List.mem_filter.mp hp).2

/-! ### Claims -/

/-- C1: for every inbound relay payload (a JSON object whose optional
`method` field is a string, per the RelayRequest shape) in which
`targetUrl` is missing, empty, or null, the handler returns exactly the
JSON object `{error: "targetUrl is required"}` with status 400, and no
outbound call is recorded. -/
theorem C1_missing_targetUrl_is_local_400 (net : OutboundRequest → NetResult)
    (fields : List (String × Json))
    (hmethod : stringOrFalsy (dictGet fields "method"))
    (htarget : dictGet fields "targetUrl" = Json.null ∨
      dictGet fields "targetUrl" = Json.str "") :
    api_proxy net (some (Json.obj fields)) = (Outcome.reply validationReply, none) := by
  by_cases hfe : fields.isEmpty = true
  · have hnil : fields = [] := by
      cases fields with
      | nil => rfl
      | cons a l => simp [List.isEmpty] at hfe
    subst hnil
    rfl
  · have hf : fields.isEmpty = false := by simpa using hfe
    have hd : parseData (some (Json.obj fields)) = Json.obj fields := by
      simp [parseData, pyTruthy, hf]
    apply api_proxy_validation net _ fields hd
      (computeMethod_ok_of_stringOrFalsy fields hmethod)
    rcases htarget with h | h <;> rw [h] <;> rfl

/-- Witness for C1 at the concrete payload `{"method": "get"}`. -/
theorem C1_witness :
    stringOrFalsy (dictGet [("method", Json.str "get")] "method") ∧
    dictGet [("method", Json.str "get")] "targetUrl" = Json.null ∧
    api_proxy (fun _ => NetResult.exn "refused")
        (some (Json.obj [("method", Json.str "get")])) =
      (Outcome.reply validationReply, none) :=
  ⟨Or.inr ⟨"get", rfl⟩, rfl,
    C1_missing_targetUrl_is_local_400 _ _ (Or.inr ⟨"get", rfl⟩) (Or.inl rfl)⟩

/-- C3: the response-header filter drops exactly the headers whose name
case-insensitively equals `content-encoding`, `transfer-encoding` or
`connection`, keeps every other entry (as a sublist, so names, values and
order are untouched), and is idempotent. -/
theorem C3_response_filter (hs : List (String × String)) (p : String × String) :
    (p ∈ filterResponseHeaders hs ↔
      p ∈ hs ∧ strLower p.fst ∉ ["content-encoding", "transfer-encoding", "connection"]) ∧
    List.Sublist (filterResponseHeaders hs) hs ∧
    filterResponseHeaders (filterResponseHeaders hs) = filterResponseHeaders hs :=
  ⟨mem_filterResponseHeaders hs p, filterResponseHeaders_sublist hs,
    filterResponseHeaders_idem hs⟩

/-- C2 fails on the code: the pops on line 115 match the exact strings
`host`/`Host`/`content-length`/`Content-Length` only, so a caller-supplied
`HOST` header — case-insensitively equal to `host` — survives into the
outbound call. -/
theorem C2_counterexample :
    ((api_proxy (fun _ => NetResult.exn "refused")
        (some (Json.obj [("targetUrl", Json.str "http://t.example"),
          ("headers", Json.obj [("HOST", Json.str "evil")])]))).2.map
      OutboundRequest.headers) = some [("HOST", Json.str "evil")] ∧
    strLower "HOST" = "host" :=
  ⟨rfl, by decide⟩

/-- C2 amended: the outbound header set contains no key that is literally
one of `host`, `Host`, `content-length`, `Content-Length`; other casings
pass through. -/
theorem C2_exact_casings_stripped (net : OutboundRequest → NetResult) (parsed : Option Json)
    (req : OutboundRequest) (hcall : (api_proxy net parsed).2 = some req)
    (k : String) (v : Json) (hk : (k, v) ∈ req.headers) :
    k ∉ forwardStripKeys := by
  obtain ⟨fields, m, hs, hd, hm, ht, hh, hreq⟩ := api_proxy_call_shape net parsed req hcall
  subst hreq
  simp only [mkOutboundRequest] at hk
  simp only [computeHeaders] at hh
  by_cases htr : pyTruthy (dictGet fields "headers") = true
  · rw [if_pos htr] at hh
    cases hg : dictGet fields "headers" with
    | obj hs0 =>
      rw [hg] at hh
      have hhs : hs = stripRequestHeaders hs0 := by
        simpa using hh.symm
      rw [hhs] at hk
      exact ((mem_stripRequestHeaders hs0 (k, v)).mp hk).2
    | null => rw [hg] at hh; simp at hh
    | bool b => rw [hg] at hh; simp at hh
    | num n => rw [hg] at hh; simp at hh
    | str s => rw [hg] at hh; simp at hh
    | arr elems => rw [hg] at hh; simp at hh
  · rw [if_neg htr] at hh
    have hhs : hs = [] := by simpa using hh.symm
    rw [hhs] at hk
    simp at hk

/-- Witness for the amended C2: with headers `{"Host": "a", "X-Api": "k"}`
the call is made with only the `X-Api` entry, and `X-Api` is none of the
four stripped literals. -/
theorem C2_witness :
    ((api_proxy (fun _ => NetResult.exn "refused")
        (some (Json.obj [("targetUrl", Json.str "http://t.example"),
          ("headers", Json.obj [("Host", Json.str "a"), ("X-Api", Json.str "k")])]))).2 =
      some (mkOutboundRequest
        [("targetUrl", Json.str "http://t.example"),
          ("headers", Json.obj [("Host", Json.str "a"), ("X-Api", Json.str "k")])]
        "POST" [("X-Api", Json.str "k")])) ∧
    "X-Api" ∉ forwardStripKeys :=
  ⟨rfl,
    C2_exact_casings_stripped (fun _ => NetResult.exn "refused")
      (some (Json.obj [("targetUrl", Json.str "http://t.example"),
        ("headers", Json.obj [("Host", Json.str "a"), ("X-Api", Json.str "k")])]))
      (mkOutboundRequest
        [("targetUrl", Json.str "http://t.example"),
          ("headers", Json.obj [("Host", Json.str "a"), ("X-Api", Json.str "k")])]
        "POST" [("X-Api", Json.str "k")])
      rfl "X-Api" (Json.str "k") (List.mem_singleton.mpr rfl)⟩

/-- Inversion specialised to a dict payload: the call, when recorded, is
assembled from that dict's own fields. -/
theorem api_proxy_call_shape_obj (net : OutboundRequest → NetResult)
    (fields : List (String × Json)) (req : OutboundRequest)
    (hcall : (api_proxy net (some (Json.obj fields))).2 = some req) :
    ∃ m hs, computeMethod fields = Except.ok m ∧
      pyTruthy (dictGet fields "targetUrl") = true ∧
      computeHeaders fields = Except.ok hs ∧
      req = mkOutboundRequest fields m hs := by
  obtain ⟨fields2, m, hs, hd, hm, ht, hh, hreq⟩ := api_proxy_call_shape net _ req hcall
  simp only [parseData] at hd
  by_cases hfe : pyTruthy (Json.obj fields) = true
  · rw [if_pos hfe] at hd
    injection hd with h
    subst h
    exact ⟨m, hs, hm, ht, hh, hreq⟩
  · rw [if_neg hfe] at hd
    injection hd with h
    rw [← h, dictGet_nil] at ht
    exact absurd ht (by decide)

/-- C5 fails on the code: a supplied empty `method` string is not sent as
its own uppercase; `("" or "POST")` makes the outbound method `POST`. -/
theorem C5_counterexample :
    ((api_proxy (fun _ => NetResult.exn "refused")
        (some (Json.obj [("targetUrl", Json.str "http://t.example"),
          ("method", Json.str "")]))).2.map OutboundRequest.method) = some "POST" ∧
    ("POST" : String) ≠ strUpper "" :=
  ⟨rfl, by decide⟩

/-- C5 amended: the outbound method is `POST` when the `method` field is
omitted (or otherwise falsy, in particular empty or null), and is the
supplied string uppercased when that string is non-empty. -/
theorem C5_method_default_and_uppercase (net : OutboundRequest → NetResult)
    (fields : List (String × Json)) (req : OutboundRequest)
    (hcall : (api_proxy net (some (Json.obj fields))).2 = some req) :
    (pyTruthy (dictGet fields "method") = false → req.method = "POST") ∧
    (∀ s, dictGet fields "method" = Json.str s → s ≠ "" → req.method = strUpper s) := by
  obtain ⟨m, hs, hm, ht, hh, hreq⟩ := api_proxy_call_shape_obj net fields req hcall
  subst hreq
  constructor
  · intro hfalsy
    simp only [computeMethod, hfalsy] at hm
    simpa [mkOutboundRequest] using hm.symm
  · intro s hss hne
    have htr : pyTruthy (Json.str s) = true := by simp [pyTruthy, hne]
    simp only [computeMethod, hss, htr, if_true] at hm
    simpa [mkOutboundRequest] using hm.symm

/-- Witness for the amended C5: method `get` is sent as `GET`. -/
theorem C5_witness :
    ((api_proxy (fun _ => NetResult.exn "refused")
        (some (Json.obj [("targetUrl", Json.str "http://t.example"),
          ("method", Json.str "get")]))).2 =
      some (mkOutboundRequest
        [("targetUrl", Json.str "http://t.example"), ("method", Json.str "get")]
        "GET" [])) ∧
    (mkOutboundRequest
        [("targetUrl", Json.str "http://t.example"), ("method", Json.str "get")]
        "GET" []).method = strUpper "get" :=
  ⟨rfl,
    (C5_method_default_and_uppercase (fun _ => NetResult.exn "refused")
      [("targetUrl", Json.str "http://t.example"), ("method", Json.str "get")]
      (mkOutboundRequest
        [("targetUrl", Json.str "http://t.example"), ("method", Json.str "get")]
        "GET" [])
      rfl).2 "get" rfl (by decide)⟩

/-- C6: a `GET` outbound call never carries a body, and a body is attached
(as the `json=` kwarg, i.e. JSON-serialized) exactly when the normalized
method is not `GET` and the supplied body value is not null. -/
theorem C6_get_never_sends_body (net : OutboundRequest → NetResult)
    (fields : List (String × Json)) (req : OutboundRequest)
    (hcall : (api_proxy net (some (Json.obj fields))).2 = some req) :
    (req.method = "GET" → req.jsonBody = none) ∧
    (req.jsonBody = some (dictGet fields "body") ↔
      req.method ≠ "GET" ∧ (dictGet fields "body").isNull = false) ∧
    (req.jsonBody = none ∨ req.jsonBody = some (dictGet fields "body")) := by
  obtain ⟨m, hs, hm, ht, hh, hreq⟩ := api_proxy_call_shape_obj net fields req hcall
  subst hreq
  simp only [mkOutboundRequest, computeBody]
  by_cases hg : m = "GET"
  · subst hg
    simp
  · by_cases hb : (dictGet fields "body").isNull = true
    · constructor
      · intro h
        simp [hg, hb]
      · constructor
        · constructor
          · intro h
            rw [if_neg (by simp [hb])] at h
            exact absurd h (by simp)
          · rintro ⟨h1, h2⟩
            rw [hb] at h2
            exact absurd h2 (by simp)
        · left
          rw [if_neg (by simp [hb])]
    · have hbf : (dictGet fields "body").isNull = false := by simpa using hb
      constructor
      · intro h
        exact absurd h hg
      · constructor
        · constructor
          · intro h
            exact ⟨hg, hbf⟩
          · rintro ⟨h1, h2⟩
            rw [if_pos (by simp [hg, hbf])]
        · right
          rw [if_pos (by simp [hg, hbf])]

/-- Witness for C6: a `get` request with a supplied body sends no body. -/
theorem C6_witness :
    ((api_proxy (fun _ => NetResult.exn "refused")
        (some (Json.obj [("targetUrl", Json.str "http://t.example"),
          ("method", Json.str "get"), ("body", Json.obj [("a", Json.num 1)])]))).2 =
      some (mkOutboundRequest
        [("targetUrl", Json.str "http://t.example"), ("method", Json.str "get"),
          ("body", Json.obj [("a", Json.num 1)])]
        "GET" [])) ∧
    (mkOutboundRequest
        [("targetUrl", Json.str "http://t.example"), ("method", Json.str "get"),
          ("body", Json.obj [("a", Json.num 1)])]
        "GET" []).jsonBody = none :=
  ⟨rfl,
    (C6_get_never_sends_body (fun _ => NetResult.exn "refused")
      [("targetUrl", Json.str "http://t.example"), ("method", Json.str "get"),
        ("body", Json.obj [("a", Json.num 1)])]
      (mkOutboundRequest
        [("targetUrl", Json.str "http://t.example"), ("method", Json.str "get"),
          ("body", Json.obj [("a", Json.num 1)])]
        "GET" [])
      rfl).1 rfl⟩

/-- Whenever a recorded outbound call raises, the handler's `except` block
translates it into the 500 `{error: message}` reply. -/
theorem api_proxy_exn_reply (net : OutboundRequest → NetResult) (parsed : Option Json)
    (req : OutboundRequest) (msg : String)
    (hcall : (api_proxy net parsed).2 = some req)
    (hmsg : net req = NetResult.exn msg) :
    (api_proxy net parsed).1 =
      Outcome.reply { status := 500, body := ReplyBody.jsonError msg, headers := [] } := by
  obtain ⟨fields, m, hs, hd, hm, ht, hh, hreq⟩ := api_proxy_call_shape net parsed req hcall
  subst hreq
  rw [api_proxy_run net parsed fields m hs hd hm ht hh]
  simp only [hmsg]

/-- C7 fails on the code: a payload whose `headers` field is a truthy
non-dict (here the string `boom`) makes line 115's `headers.pop` raise an
`AttributeError` outside the `try` block, so the handler does not return a
structured reply. -/
theorem C7_counterexample :
    (api_proxy (fun _ => NetResult.exn "refused")
        (some (Json.obj [("targetUrl", Json.str "http://t.example"),
          ("headers", Json.str "boom")]))).1 =
      Outcome.unhandled "AttributeError: object has no attribute pop" :=
  rfl

/-- C7 amended: for payloads matching the RelayRequest shape (dict or
falsy; `method` a string or falsy; `headers` a dict or falsy) the handler
always answers with a structured reply, and any transport exception of the
outbound call is converted to `{error: message}` with status 500. -/
theorem C7_total_for_welltyped (net : OutboundRequest → NetResult) (parsed : Option Json)
    (hw : wellTypedPayload parsed) :
    (∃ r, (api_proxy net parsed).1 = Outcome.reply r) ∧
    (∀ req msg, (api_proxy net parsed).2 = some req → net req = NetResult.exn msg →
      (api_proxy net parsed).1 =
        Outcome.reply { status := 500, body := ReplyBody.jsonError msg, headers := [] }) := by
  refine ⟨?_, fun req msg hcall hmsg => api_proxy_exn_reply net parsed req msg hcall hmsg⟩
  rcases parsed with _ | j
  · exact ⟨validationReply, rfl⟩
  · rcases hw with hfalsy | ⟨fields, rfl, hmeth, hhead⟩
    · have hv := api_proxy_validation net (some j) []
        (by simp [parseData, hfalsy]) ⟨"POST", rfl⟩ rfl
      exact ⟨validationReply, by rw [hv]⟩
    · obtain ⟨m, hm⟩ := computeMethod_ok_of_stringOrFalsy fields hmeth
      obtain ⟨hs, hh⟩ := computeHeaders_ok_of_dictOrFalsy fields hhead
      by_cases hfe : pyTruthy (Json.obj fields) = true
      · have hd : parseData (some (Json.obj fields)) = Json.obj fields := by
          simp [parseData, hfe]
        by_cases ht : pyTruthy (dictGet fields "targetUrl") = true
        · have hrun := api_proxy_run net _ fields m hs hd hm ht hh
          cases hnet : net (mkOutboundRequest fields m hs) with
          | ok resp =>
            refine ⟨{ status := resp.status_code, body := ReplyBody.raw resp.content,
                      headers := filterResponseHeaders resp.headers }, ?_⟩
            rw [hrun]
            simp only [hnet]
          | exn msg =>
            refine ⟨{ status := 500, body := ReplyBody.jsonError msg, headers := [] }, ?_⟩
            rw [hrun]
            simp only [hnet]
        · have hv := api_proxy_validation net _ fields hd ⟨m, hm⟩ (by simpa using ht)
          exact ⟨validationReply, by rw [hv]⟩
      · have hd : parseData (some (Json.obj fields)) = Json.obj [] := by
          simp only [parseData]
          rw [if_neg hfe]
        have hv := api_proxy_validation net _ [] hd ⟨"POST", rfl⟩ rfl
        exact ⟨validationReply, by rw [hv]⟩

/-- Witness for the amended C7: a transport failure on a valid payload
yields the structured 500 reply. -/
theorem C7_witness :
    wellTypedPayload (some (Json.obj [("targetUrl", Json.str "http://down.example")])) ∧
    (api_proxy (fun _ => NetResult.exn "ConnectionError")
        (some (Json.obj [("targetUrl", Json.str "http://down.example")]))).1 =
      Outcome.reply { status := 500, body := ReplyBody.jsonError "ConnectionError",
                      headers := [] } :=
  ⟨Or.inr ⟨[("targetUrl", Json.str "http://down.example")], rfl, Or.inl rfl, Or.inl rfl⟩,
    (C7_total_for_welltyped (fun _ => NetResult.exn "ConnectionError")
      (some (Json.obj [("targetUrl", Json.str "http://down.example")]))
      (Or.inr ⟨[("targetUrl", Json.str "http://down.example")], rfl,
        Or.inl rfl, Or.inl rfl⟩)).2
      (mkOutboundRequest [("targetUrl", Json.str "http://down.example")] "POST" [])
      "ConnectionError" rfl rfl⟩

/-- C8 fails on the code: the well-formed non-object payload `[1]` is
truthy, survives the `or {}` fallback, and then `data.get` raises an
`AttributeError` — not the 400 validation reply the claim promises. -/
theorem C8_counterexample :
    (api_proxy (fun _ => NetResult.exn "refused") (some (Json.arr [Json.num 1]))).1 =
      Outcome.unhandled "AttributeError: object has no attribute get" ∧
    (api_proxy (fun _ => NetResult.exn "refused") (some (Json.arr [Json.num 1]))).1 ≠
      Outcome.reply validationReply :=
  ⟨rfl, fun h => Outcome.noConfusion h⟩

/-- C8 amended: an absent or undecodable body, and any falsy decoded
payload (null, false, 0, the empty string/array/object), degrades to the
empty object and hence to the 400 validation reply with no outbound call;
a truthy non-object payload instead raises. -/
theorem C8_lenient_decode (net : OutboundRequest → NetResult) (parsed : Option Json)
    (h : parsed = none ∨ ∃ j, parsed = some j ∧ pyTruthy j = false) :
    api_proxy net parsed = (Outcome.reply validationReply, none) := by
  rcases h with rfl | ⟨j, rfl, hj⟩
  · rfl
  · exact api_proxy_validation net (some j) [] (by simp [parseData, hj]) ⟨"POST", rfl⟩ rfl

/-- Witness for the amended C8 at the falsy payload `""`. -/
theorem C8_witness :
    (some (Json.str "") = none ∨ ∃ j, some (Json.str "") = some j ∧ pyTruthy j = false) ∧
    api_proxy (fun _ => NetResult.exn "refused") (some (Json.str "")) =
      (Outcome.reply validationReply, none) :=
  ⟨Or.inr ⟨Json.str "", rfl, rfl⟩,
    C8_lenient_decode _ _ (Or.inr ⟨Json.str "", rfl, rfl⟩)⟩

/-- C9: every outbound call the handler issues carries `timeout = 120`
(the `requests` kwarg, in seconds), and when the call ends in an exception
— in particular a timeout — the caller gets the 500 `{error: message}`
reply rather than a hang. -/
theorem C9_timeout_bound (net : OutboundRequest → NetResult) (parsed : Option Json)
    (req : OutboundRequest) (hcall : (api_proxy net parsed).2 = some req) :
    req.timeout = 120 ∧
    (∀ msg, net req = NetResult.exn msg →
      (api_proxy net parsed).1 =
        Outcome.reply { status := 500, body := ReplyBody.jsonError msg, headers := [] }) := by
  obtain ⟨fields, m, hs, hd, hm, ht, hh, hreq⟩ := api_proxy_call_shape net parsed req hcall
  constructor
  · rw [hreq]
    rfl
  · intro msg hmsg
    exact api_proxy_exn_reply net parsed req msg hcall hmsg

/-- Witness for C9: a target that times out produces the 500 reply, and the
call was issued with the 120-second bound. -/
theorem C9_witness :
    ((api_proxy (fun _ => NetResult.exn "ReadTimeout")
        (some (Json.obj [("targetUrl", Json.str "http://slow.example")]))).2 =
      some (mkOutboundRequest [("targetUrl", Json.str "http://slow.example")] "POST" [])) ∧
    (mkOutboundRequest [("targetUrl", Json.str "http://slow.example")] "POST" []).timeout
      = 120 ∧
    (api_proxy (fun _ => NetResult.exn "ReadTimeout")
        (some (Json.obj [("targetUrl", Json.str "http://slow.example")]))).1 =
      Outcome.reply { status := 500, body := ReplyBody.jsonError "ReadTimeout",
                      headers := [] } :=
  ⟨rfl,
    (C9_timeout_bound (fun _ => NetResult.exn "ReadTimeout")
      (some (Json.obj [("targetUrl", Json.str "http://slow.example")]))
      (mkOutboundRequest [("targetUrl", Json.str "http://slow.example")] "POST" []) rfl).1,
    (C9_timeout_bound (fun _ => NetResult.exn "ReadTimeout")
      (some (Json.obj [("targetUrl", Json.str "http://slow.example")]))
      (mkOutboundRequest [("targetUrl", Json.str "http://slow.example")] "POST" []) rfl).2
      "ReadTimeout" rfl⟩

/-- C10: a `method` field supplied as null or as the empty string defaults
to `POST` just like an omitted one, and a null `headers` field is treated
as the empty header mapping — the call is made rather than an error
raised. -/
theorem C10_falsy_defaults (net : OutboundRequest → NetResult)
    (fields : List (String × Json)) (u : String)
    (hu : dictGet fields "targetUrl" = Json.str u) (hune : u ≠ "")
    (hmeth : dictGet fields "method" = Json.null ∨ dictGet fields "method" = Json.str "")
    (hhead : dictGet fields "headers" = Json.null) :
    (api_proxy net (some (Json.obj fields))).2 =
      some (mkOutboundRequest fields "POST" []) := by
  have ht : pyTruthy (dictGet fields "targetUrl") = true := by
    rw [hu]
    simp [pyTruthy, hune]
  have hne : fields.isEmpty = false := by
    cases fields with
    | nil => rw [dictGet_nil] at hu; exact Json.noConfusion hu
    | cons a l => rfl
  have hd : parseData (some (Json.obj fields)) = Json.obj fields := by
    simp [parseData, pyTruthy, hne]
  have hm : computeMethod fields = Except.ok "POST" := by
    rcases hmeth with h | h <;> simp [computeMethod, h, pyTruthy]
  have hh : computeHeaders fields = Except.ok [] := by
    simp [computeHeaders, hhead, pyTruthy]
  rw [api_proxy_run net _ fields "POST" [] hd hm ht hh]

/-- Witness for C10: null `method` and null `headers` still produce a
`POST` call with empty headers. -/
theorem C10_witness :
    dictGet [("targetUrl", Json.str "http://t2.example"), ("method", Json.null),
        ("headers", Json.null)] "headers" = Json.null ∧
    (api_proxy (fun _ => NetResult.exn "refused")
        (some (Json.obj [("targetUrl", Json.str "http://t2.example"),
          ("method", Json.null), ("headers", Json.null)]))).2 =
      some (mkOutboundRequest [("targetUrl", Json.str "http://t2.example"),
          ("method", Json.null), ("headers", Json.null)] "POST" []) :=
  ⟨rfl,
    C10_falsy_defaults (fun _ => NetResult.exn "refused")
      [("targetUrl", Json.str "http://t2.example"), ("method", Json.null),
        ("headers", Json.null)]
      "http://t2.example" rfl (by decide) (Or.inl rfl) rfl⟩

/-- C4: for every valid relay request whose outbound call completes with an
upstream response — any status in [100, 599] — the reply carries the
upstream status code and the upstream body bytes unmodified (with the
filtered upstream headers). -/
theorem C4_status_body_passthrough (net : OutboundRequest → NetResult)
    (fields : List (String × Json)) (u m : String) (hs : List (String × Json))
    (resp : UpstreamResponse)
    (hu : dictGet fields "targetUrl" = Json.str u) (hune : u ≠ "")
    (hm : computeMethod fields = Except.ok m)
    (hh : computeHeaders fields = Except.ok hs)
    (hnet : net (mkOutboundRequest fields m hs) = NetResult.ok resp)
    (hlo : 100 ≤ resp.status_code) (hhi : resp.status_code ≤ 599) :
    (api_proxy net (some (Json.obj fields))).1 =
      Outcome.reply { status := resp.status_code, body := ReplyBody.raw resp.content,
                      headers := filterResponseHeaders resp.headers } := by
  have ht : pyTruthy (dictGet fields "targetUrl") = true := by
    rw [hu]
    simp [pyTruthy, hune]
  have hne : fields.isEmpty = false := by
    cases fields with
    | nil => rw [dictGet_nil] at hu; exact Json.noConfusion hu
    | cons a l => rfl
  have hd : parseData (some (Json.obj fields)) = Json.obj fields := by
    simp [parseData, pyTruthy, hne]
  rw [api_proxy_run net _ fields m hs hd hm ht hh]
  simp only [hnet]

/-- A sample upstream answer: 404, body bytes `hi`, one excluded and one
ordinary header.  Used by the C4 witness. -/
def sampleUpstream : UpstreamResponse :=
  { status_code := 404
    content := [104, 105]
    headers := [("Content-Encoding", "gzip"), ("X-A", "1")] }

/-- Witness for C4: the spec's concrete scenario — a `get` request relayed
to a target answering 404 with bytes `hi` and a `Content-Encoding` header. -/
theorem C4_witness :
    ((100:Nat) ≤ 404 ∧ (404:Nat) ≤ 599) ∧
    (api_proxy (fun _ => NetResult.ok sampleUpstream)
      (some (Json.obj [("targetUrl", Json.str "http://example.test/x"),
        ("method", Json.str "get"), ("body", Json.obj [("a", Json.num 1)])]))).1 =
      Outcome.reply { status := 404, body := ReplyBody.raw [104, 105],
                      headers := [("X-A", "1")] } :=
  ⟨⟨by decide, by decide⟩,
    C4_status_body_passthrough (fun _ => NetResult.ok sampleUpstream)
      [("targetUrl", Json.str "http://example.test/x"),
        ("method", Json.str "get"), ("body", Json.obj [("a", Json.num 1)])]
      "http://example.test/x" "GET" [] sampleUpstream
      rfl (by decide) rfl rfl rfl (by decide) (by decide)⟩

end NanoBanana
